import Mathlib

/-!
Verification development for the go-logger repository (a structured
logging facade over the zap engine).  The Go source is shallowly embedded:
pure functions become Lean functions, the process-wide mutable context-key
registry becomes an explicit parameter (its initializer is `contextKeys`),
and fallible construction returns `Except String`.
-/

namespace GoLogger

/-- Go type `AppMode string` (types.go). -/
abbrev AppMode := String

/-- Go type `Encoding string` (types.go). -/
abbrev Encoding := String

/-- Go type `Level string` (types.go). -/
abbrev Level := String

/-- Go type `ContextKey string` (types.go). -/
abbrev ContextKey := String

/-- Go struct `LoggingField { Key ContextKey; Value string }`. -/
structure LoggingField where
  Key : ContextKey
  Value : String
deriving DecidableEq

/-- A value stored in a Go `context.Context` under some key: either a string
(the only type the extractor accepts) or a value of any other dynamic type,
abstracted by a tag. -/
inductive CtxVal where
  | str (s : String)
  | other (tag : Nat)
deriving DecidableEq

/-- Model of Go `context.Context` restricted to what the code observes:
`ctx.Value(key)` for keys of type `ContextKey`, returning `nil` (`none`)
or a dynamically-typed value.  A nil context is modelled by `Option Ctx`
at use sites. -/
def Ctx := ContextKey → Option CtxVal

def AppModeDevelopment : AppMode := "development"

def AppModeStaging : AppMode := "staging"

def AppModeProduction : AppMode := "production"

def AppModeEmpty : AppMode := "empty"

def EncodingJson : Encoding := "json"

def EncodingConsole : Encoding := "console"

def LevelDebug : Level := "debug"

def LevelInfo : Level := "info"

def LevelWarning : Level := "warning"

def LevelError : Level := "error"

def LevelPanic : Level := "panic"

def LevelFatal : Level := "fatal"

def ContextKeyUserID : ContextKey := "user_id"

def ContextKeyTraceID : ContextKey := "trace_id"

def ContextKeySpanID : ContextKey := "span_id"

def ContextKeyEntityGuid : ContextKey := "entity_guid"

def ContextKeyHostname : ContextKey := "hostname"

def ContextKeyApplicationName : ContextKey := "application_name"

def ContextKeyApplicationEnvironment : ContextKey := "application_environment"

def ContextKeyRequestID : ContextKey := "request_id"

def ContextKeyAcceptLanguage : ContextKey := "accept_language"

def ContextKeyUserContext : ContextKey := "user_context"

def ContextKeyIpAddress : ContextKey := "ip_address"

/-- Initial value of the process-wide mutable registry `var contextKeys`
(types.go).  Functions that read the registry in Go take the current
registry as an explicit argument here. -/
def contextKeys : List ContextKey :=
  [ContextKeyUserID, ContextKeyTraceID, ContextKeySpanID, ContextKeyEntityGuid,
   ContextKeyHostname, ContextKeyApplicationName, ContextKeyApplicationEnvironment,
   ContextKeyRequestID, ContextKeyAcceptLanguage, ContextKeyUserContext,
   ContextKeyIpAddress]

/-- Go map `validAppMode` (types.go): membership test. -/
def validAppMode (am : AppMode) : Bool :=
  am == AppModeDevelopment || am == AppModeProduction || am == AppModeStaging

/-- Go map `validEncoding` (types.go): membership test. -/
def validEncoding (e : Encoding) : Bool :=
  e == EncodingConsole || e == EncodingJson

/-- Go method `AppMode.String` (types.go). -/
def AppMode.String (am : AppMode) : String :=
  if validAppMode am then am else AppModeEmpty

/-- Go method `Encoding.String` (types.go). -/
def Encoding.String (e : Encoding) : String :=
  if validEncoding e then e else EncodingConsole

/-- Go method `ContextKey.String` (types.go). -/
def ContextKey.String (ck : ContextKey) : String := ck

/-- Go function `getStringFromContext` (context.go): safe extraction of a
string value from a possibly-nil context, returning the Go pair
`(string, bool)`. -/
def getStringFromContext (ctx : Option Ctx) (key : ContextKey) : String × Bool :=
  match ctx with
  | none => ("", false)
  | some c =>
    if key = "" then ("", false)
    else
      match c key with
      | none => ("", false)
      | some (CtxVal.str s) => (s, true)
      | some (CtxVal.other _) => ("", false)

/-- Go function `GetLoggingFields` (context.go): iterate the registry in
order, skipping empty keys and keys whose context value is absent or not a
string; the Go `for`/`append` loop is a left fold.  The registry (global in
Go) is the first argument. -/
def GetLoggingFields (registry : List ContextKey) (ctx : Option Ctx) :
    List LoggingField :=
  match ctx with
  | none => []
  | some _ =>
    registry.foldl
      (fun fields key =>
        if key = "" then fields
        else
          match getStringFromContext ctx key with
          | (value, true) => fields ++ [⟨key, value⟩]
          | (_, false) => fields)
      []

/-- Go function `AppendContextKeys` (context.go): append keys to the
registry (functionally: the new registry value). -/
def AppendContextKeys (registry : List ContextKey) (keys : List ContextKey) :
    List ContextKey :=
  registry ++ keys

/-- The contribution of one registered key to the extractor's output, as a
`filterMap` selector: `some` exactly when the key is non-empty and the
context holds a string under it. -/
def keySelect (c : Ctx) (key : ContextKey) : Option LoggingField :=
  if key = "" then none
  else
    match c key with
    | some (CtxVal.str s) => some ⟨key, s⟩
    | _ => none

theorem getLoggingFields_go (c : Ctx) (registry : List ContextKey)
    (acc : List LoggingField) :
    registry.foldl
      (fun fields key =>
        if key = "" then fields
        else
          match getStringFromContext (some c) key with
          | (value, true) => fields ++ [⟨key, value⟩]
          | (_, false) => fields)
      acc = acc ++ registry.filterMap (keySelect c) := by
  induction registry generalizing acc with
  | nil => simp
  | cons k t ih =>
    rw [List.foldl_cons, ih, List.filterMap_cons]
    by_cases hk : k = ""
    · simp [hk, keySelect]
    · rcases hv : c k with _ | v
      · simp [keySelect, hk, getStringFromContext, hv]
      · cases v with
        | str s => simp [keySelect, hk, getStringFromContext, hv]
        | other tag => simp [keySelect, hk, getStringFromContext, hv]

/-- Shared characterization: extraction over a non-nil context is the
registry filtered and mapped through `keySelect`. -/
theorem getLoggingFields_eq_filterMap (registry : List ContextKey) (c : Ctx) :
    GetLoggingFields registry (some c) = registry.filterMap (keySelect c) := by
  simpa using getLoggingFields_go c registry []

/-- Model of `zapcore.Level` (external zap dependency), with zapcore's
constant names. -/
inductive ZapcoreLevel where
  | DebugLevel
  | InfoLevel
  | WarnLevel
  | ErrorLevel
  | DPanicLevel
  | PanicLevel
  | FatalLevel
deriving DecidableEq

/-- zapcore's numeric severity (Debug = -1 … Fatal = 5), used for the
enabled-level comparison. -/
def ZapcoreLevel.toInt : ZapcoreLevel → Int
  | .DebugLevel => -1
  | .InfoLevel => 0
  | .WarnLevel => 1
  | .ErrorLevel => 2
  | .DPanicLevel => 3
  | .PanicLevel => 4
  | .FatalLevel => 5

/-- Go function `parseLevel` (context.go): maps the six recognized level
strings to zap levels; the empty string and unrecognized strings yield the
source's exact error messages. -/
def parseLevel (level : Level) : Except String ZapcoreLevel :=
  if level = "" then
    Except.error "logging level cannot be empty. Please specify one of: debug, info, warning, error, panic, fatal"
  else if level = LevelDebug then Except.ok ZapcoreLevel.DebugLevel
  else if level = LevelInfo then Except.ok ZapcoreLevel.InfoLevel
  else if level = LevelWarning then Except.ok ZapcoreLevel.WarnLevel
  else if level = LevelError then Except.ok ZapcoreLevel.ErrorLevel
  else if level = LevelPanic then Except.ok ZapcoreLevel.PanicLevel
  else if level = LevelFatal then Except.ok ZapcoreLevel.FatalLevel
  else
    Except.error ("invalid logging level: '" ++ level ++ "'. Supported levels are: debug, info, warning, error, panic, fatal. Please check your configuration and ensure you're using one of these valid levels")

/-- Go struct `config` (option.go).  `NewRelicApp` is a nil-able pointer in
Go; only its presence is observable here. -/
structure config where
  Level : Level
  Encoding : Encoding
  AppMode : AppMode
  NewRelicApp : Bool
  TimeKey : String
  LevelKey : String
  NameKey : String
  CallerKey : String
  MessageKey : String
  StacktraceKey : String
  DisableStacktrace : Bool
  DisableCaller : Bool
  OutputPaths : List String
  ErrorOutputPaths : List String
deriving DecidableEq

/-- Go's zero value of `config`, the starting point `&config{}` in
`NewLogger`. -/
def emptyConfig : config :=
  { Level := "", Encoding := "", AppMode := "", NewRelicApp := false,
    TimeKey := "", LevelKey := "", NameKey := "", CallerKey := "",
    MessageKey := "", StacktraceKey := "", DisableStacktrace := false,
    DisableCaller := false, OutputPaths := [], ErrorOutputPaths := [] }

/-- Go type `Option func(*config)` (option.go); renamed because `Option` is
taken by Lean's core library.  Go mutates the pointed-to struct; here an
option maps the config to the updated config. -/
def ConfigOption := config → config

def WithLevel (level : Level) : ConfigOption :=
  fun c => { c with Level := level }

def WithEncoding (encoding : Encoding) : ConfigOption :=
  fun c => { c with Encoding := encoding }

def WithAppMode (appMode : AppMode) : ConfigOption :=
  fun c => { c with AppMode := appMode }

def WithNewRelicApp (newRelicApp : Bool) : ConfigOption :=
  fun c => { c with NewRelicApp := newRelicApp }

/-- Go option `WithDefaultConfig` (option.go): sets every field except
`NewRelicApp` to the built-in default. -/
def WithDefaultConfig : ConfigOption :=
  fun c =>
    { c with
      Level := LevelInfo
      Encoding := EncodingJson
      AppMode := AppModeDevelopment
      TimeKey := "time"
      LevelKey := "level"
      NameKey := "logger"
      CallerKey := "caller"
      MessageKey := "message"
      StacktraceKey := "stack_trace"
      DisableStacktrace := true
      DisableCaller := true
      OutputPaths := ["stdout"]
      ErrorOutputPaths := ["stderr"] }

def WithTimeKey (timeKey : String) : ConfigOption :=
  fun c => { c with TimeKey := timeKey }

def WithLevelKey (levelKey : String) : ConfigOption :=
  fun c => { c with LevelKey := levelKey }

def WithNameKey (nameKey : String) : ConfigOption :=
  fun c => { c with NameKey := nameKey }

def WithCallerKey (callerKey : String) : ConfigOption :=
  fun c => { c with CallerKey := callerKey }

def WithMessageKey (messageKey : String) : ConfigOption :=
  fun c => { c with MessageKey := messageKey }

def WithStacktraceKey (stacktraceKey : String) : ConfigOption :=
  fun c => { c with StacktraceKey := stacktraceKey }

def WithDisableStacktrace (disableStacktrace : Bool) : ConfigOption :=
  fun c => { c with DisableStacktrace := disableStacktrace }

def WithDisableCaller (disableCaller : Bool) : ConfigOption :=
  fun c => { c with DisableCaller := disableCaller }

def WithOutputPaths (outputPaths : List String) : ConfigOption :=
  fun c => { c with OutputPaths := outputPaths }

def WithErrorOutputPaths (errorOutputPaths : List String) : ConfigOption :=
  fun c => { c with ErrorOutputPaths := errorOutputPaths }

/-- Which zap base preset `NewLogger` selected (external zap dependency:
`zap.NewDevelopmentConfig` vs `zap.NewProductionConfig`). -/
inductive Preset where
  | development
  | production
deriving DecidableEq

/-- Model of `zap.Config` (external zap dependency), restricted to the
fields this repository reads or writes, plus the preset marker. -/
structure ZapConfig where
  preset : Preset
  level : ZapcoreLevel
  encoding : String
  timeKey : String
  levelKey : String
  nameKey : String
  callerKey : String
  messageKey : String
  stacktraceKey : String
  disableStacktrace : Bool
  disableCaller : Bool
  outputPaths : List String
  errorOutputPaths : List String
deriving DecidableEq

/-- Model of `zap.NewDevelopmentConfig()`: zap's development defaults
(every field below is overwritten by `NewLogger` before building). -/
def NewDevelopmentConfig : ZapConfig :=
  { preset := Preset.development, level := ZapcoreLevel.DebugLevel,
    encoding := "console", timeKey := "T", levelKey := "L", nameKey := "N",
    callerKey := "C", messageKey := "M", stacktraceKey := "S",
    disableStacktrace := false, disableCaller := false,
    outputPaths := ["stderr"], errorOutputPaths := ["stderr"] }

/-- Model of `zap.NewProductionConfig()`: zap's production defaults
(every field below is overwritten by `NewLogger` before building). -/
def NewProductionConfig : ZapConfig :=
  { preset := Preset.production, level := ZapcoreLevel.InfoLevel,
    encoding := "json", timeKey := "ts", levelKey := "level",
    nameKey := "logger", callerKey := "caller", messageKey := "msg",
    stacktraceKey := "stacktrace", disableStacktrace := false,
    disableCaller := false, outputPaths := ["stderr"],
    errorOutputPaths := ["stderr"] }

/-- A structured field of a log record (model of `zap.Field`, aliased as
`Field` in types.go): a key plus a dynamically-typed value. -/
structure Field where
  key : String
  value : CtxVal
deriving DecidableEq

/-- Model of the zap field constructor `zap.String`. -/
def zap.String (key value : String) : Field :=
  { key := key, value := CtxVal.str value }

/-- Model of `zap.Logger` (the external engine): the configuration it was
built from, whether the New Relic core wrap was applied, and the fields
accumulated through `With`. -/
structure ZapLogger where
  cfg : ZapConfig
  nrWrapped : Bool
  context : List Field
deriving DecidableEq

/-- `zap.Config.Build` (external zap dependency): produces a live engine
with no accumulated fields.  Output-path I/O failures are outside the
model, so building always succeeds here. -/
def ZapConfig.Build (zc : ZapConfig) : ZapLogger :=
  { cfg := zc, nrWrapped := false, context := [] }

/-- zap's `Logger.With`: a child engine whose accumulated fields are the
parent's followed by the new ones. -/
def ZapLogger.With (z : ZapLogger) (fields : List Field) : ZapLogger :=
  { z with context := z.context ++ fields }

/-- A record accepted by the engine's core: severity, message, and the full
field list (accumulated context first, then call-site fields). -/
structure Entry where
  level : ZapcoreLevel
  msg : String
  fields : List Field
deriving DecidableEq

/-- zap's level check: a record at `lvl` passes when `lvl` is at or above
the configured minimum. -/
def ZapLogger.enabled (z : ZapLogger) (lvl : ZapcoreLevel) : Bool :=
  ZapcoreLevel.toInt z.cfg.level ≤ ZapcoreLevel.toInt lvl

/-- zap's leveled emission: when the level check passes, the core receives
one entry carrying the accumulated context followed by the call-site
fields; otherwise nothing is emitted. -/
def ZapLogger.log (z : ZapLogger) (lvl : ZapcoreLevel) (msg : String)
    (fields : List Field) : Option Entry :=
  if ZapLogger.enabled z lvl then
    some { level := lvl, msg := msg, fields := z.context ++ fields }
  else none

/-- Go struct `zapLogger` (zap.go), the repository's wrapper around the
engine. -/
structure zapLogger where
  zapLogger : ZapLogger
deriving DecidableEq

/-- Go method `zapLogger.extractTrace` (zap.go): the extracted logging
fields turned into zap string fields by a `for`/`append` loop.  Takes the
current registry (global in Go). -/
def zapLogger.extractTrace (registry : List ContextKey) (ctx : Option Ctx) :
    List Field :=
  (GetLoggingFields registry ctx).foldl
    (fun fields field =>
      fields ++ [zap.String (ContextKey.String field.Key) field.Value])
    []

/-- Go method `zapLogger.Info` (zap.go):
`z.zapLogger.With(z.extractTrace(ctx)...).Info(msg, fields...)`.  The
result is what reaches the engine's core (`none` when filtered out). -/
def zapLogger.Info (registry : List ContextKey) (z : GoLogger.zapLogger)
    (ctx : Option Ctx) (msg : String) (fields : List Field) : Option Entry :=
  ZapLogger.log (ZapLogger.With z.zapLogger (zapLogger.extractTrace registry ctx))
    ZapcoreLevel.InfoLevel msg fields

/-- Go method `zapLogger.Warn` (zap.go). -/
def zapLogger.Warn (registry : List ContextKey) (z : GoLogger.zapLogger)
    (ctx : Option Ctx) (msg : String) (fields : List Field) : Option Entry :=
  ZapLogger.log (ZapLogger.With z.zapLogger (zapLogger.extractTrace registry ctx))
    ZapcoreLevel.WarnLevel msg fields

/-- Go method `zapLogger.Error` (zap.go). -/
def zapLogger.Error (registry : List ContextKey) (z : GoLogger.zapLogger)
    (ctx : Option Ctx) (msg : String) (fields : List Field) : Option Entry :=
  ZapLogger.log (ZapLogger.With z.zapLogger (zapLogger.extractTrace registry ctx))
    ZapcoreLevel.ErrorLevel msg fields

/-- Go method `zapLogger.Debug` (zap.go). -/
def zapLogger.Debug (registry : List ContextKey) (z : GoLogger.zapLogger)
    (ctx : Option Ctx) (msg : String) (fields : List Field) : Option Entry :=
  ZapLogger.log (ZapLogger.With z.zapLogger (zapLogger.extractTrace registry ctx))
    ZapcoreLevel.DebugLevel msg fields

/-- Go method `zapLogger.Panic` (zap.go); the process-level panic raised
after recording is a control effect outside the record model. -/
def zapLogger.Panic (registry : List ContextKey) (z : GoLogger.zapLogger)
    (ctx : Option Ctx) (msg : String) (fields : List Field) : Option Entry :=
  ZapLogger.log (ZapLogger.With z.zapLogger (zapLogger.extractTrace registry ctx))
    ZapcoreLevel.PanicLevel msg fields

/-- Go method `zapLogger.Fatal` (zap.go); the `os.Exit(1)` after recording
is a control effect outside the record model. -/
def zapLogger.Fatal (registry : List ContextKey) (z : GoLogger.zapLogger)
    (ctx : Option Ctx) (msg : String) (fields : List Field) : Option Entry :=
  ZapLogger.log (ZapLogger.With z.zapLogger (zapLogger.extractTrace registry ctx))
    ZapcoreLevel.FatalLevel msg fields

/-- Go method `zapLogger.With` (zap.go): wraps the engine's `With` in a new
wrapper value. -/
def zapLogger.With (z : GoLogger.zapLogger) (fields : List Field) : GoLogger.zapLogger :=
  { zapLogger := ZapLogger.With z.zapLogger fields }

/-- Go method `zapLogger.GetLogger` (zap.go). -/
def zapLogger.GetLogger (z : GoLogger.zapLogger) : ZapLogger :=
  z.zapLogger

/-- Go struct `logger` (logger.go), the outer facade; its `logger` field
holds the `Logger` interface, concretely always a `zapLogger`. -/
structure logger where
  logger : zapLogger
deriving DecidableEq

/-- Go method `logger.With` (logger.go): delegates to `zapLogger.With`,
returning the inner wrapper directly. -/
def logger.With (l : GoLogger.logger) (fields : List Field) : GoLogger.zapLogger :=
  zapLogger.With l.logger fields

/-- Go method `logger.Info` (logger.go): pure delegation. -/
def logger.Info (registry : List ContextKey) (l : GoLogger.logger) (ctx : Option Ctx)
    (msg : String) (fields : List Field) : Option Entry :=
  zapLogger.Info registry l.logger ctx msg fields

/-- Option application in `NewLogger` (logger.go lines 66-74): the zero
config, then `WithDefaultConfig`, then the caller's options in order. -/
def resolveConfig (opts : List ConfigOption) : config :=
  opts.foldl (fun c opt => opt c) (WithDefaultConfig emptyConfig)

/-- The assignments of logger.go lines 94-105: the resolved settings
written onto the selected base preset. -/
def resolvedZapConfig (zapConfig0 : ZapConfig) (cfg : config)
    (level : ZapcoreLevel) : ZapConfig :=
  { zapConfig0 with
    level := level
    encoding := Encoding.String cfg.Encoding
    timeKey := cfg.TimeKey
    levelKey := cfg.LevelKey
    nameKey := cfg.NameKey
    callerKey := cfg.CallerKey
    messageKey := cfg.MessageKey
    stacktraceKey := cfg.StacktraceKey
    disableStacktrace := cfg.DisableStacktrace
    disableCaller := cfg.DisableCaller
    outputPaths := cfg.OutputPaths
    errorOutputPaths := cfg.ErrorOutputPaths }

/-- Body of `NewLogger` after option application (logger.go lines 76-122):
preset selection by app mode (the `switch`), level parsing, transfer of the
resolved settings onto the zap config, build, and the optional New Relic
wrap (`nrzap.WrapBackgroundCore`, whose failure modes are outside the
model); Go's early `return nil, err` becomes error propagation. -/
def newLoggerFromConfig (cfg : config) : Except String GoLogger.logger :=
  match
    (if cfg.AppMode = AppModeDevelopment ∨ cfg.AppMode = AppModeStaging then
      Except.ok NewDevelopmentConfig
    else if cfg.AppMode = AppModeProduction then
      Except.ok NewProductionConfig
    else
      Except.error "invalid app mode" : Except String ZapConfig) with
  | Except.error e => Except.error e
  | Except.ok zapConfig0 =>
    match parseLevel cfg.Level with
    | Except.error e => Except.error e
    | Except.ok level =>
      let zaplog := ZapConfig.Build (resolvedZapConfig zapConfig0 cfg level)
      let zaplog :=
        if cfg.NewRelicApp then { zaplog with nrWrapped := true } else zaplog
      Except.ok { logger := { zapLogger := zaplog } }

/-- Go function `NewLogger` (logger.go): resolve the options, then build. -/
def NewLogger (opts : List ConfigOption) : Except String GoLogger.logger :=
  newLoggerFromConfig (resolveConfig opts)

/-- A concrete context used by witnesses: a string under `user_id`, the
empty string under `span_id`, a non-string value under `hostname`, a
string under the unregistered key `tenant_id`, nothing elsewhere. -/
def sampleCtx : Ctx := fun k =>
  if k = ContextKeyUserID then some (CtxVal.str "user-1")
  else if k = ContextKeySpanID then some (CtxVal.str "")
  else if k = ContextKeyHostname then some (CtxVal.other 0)
  else if k = "tenant_id" then some (CtxVal.str "tenant-9")
  else none

/-- Helper: a loop that appends one element per iteration is a map. -/
theorem foldl_append_singleton {α β : Type} (f : α → β) (l : List α)
    (acc : List β) :
    l.foldl (fun out x => out ++ [f x]) acc = acc ++ l.map f := by
  induction l generalizing acc with
  | nil => simp
  | cons x t ih =>
    rw [List.foldl_cons, ih]
    simp

/-- Helper: `extractTrace` is extraction followed by `zap.String` on each
pair. -/
theorem extractTrace_eq_map (registry : List ContextKey) (ctx : Option Ctx) :
    zapLogger.extractTrace registry ctx =
      (GetLoggingFields registry ctx).map
        (fun f => zap.String (ContextKey.String f.Key) f.Value) := by
  unfold zapLogger.extractTrace
  rw [foldl_append_singleton]
  simp

/-- Helper: what an emitted entry must be. -/
theorem log_some (z : ZapLogger) (lvl : ZapcoreLevel) (msg : String)
    (fields : List Field) (e : Entry)
    (h : ZapLogger.log z lvl msg fields = some e) :
    e.level = lvl ∧ e.msg = msg ∧ e.fields = z.context ++ fields := by
  unfold ZapLogger.log at h
  split at h
  · injection h with h
    subst h
    exact ⟨rfl, rfl, rfl⟩
  · cases h

/-- C1: for any context (possibly nil) and any registry state,
`GetLoggingFields` yields one field per registered key that is non-empty
and mapped to a string-typed value, in registry order (a `filterMap` of
the registry through `keySelect`); a nil context yields the empty list;
and the extraction is deterministic, so repeated calls agree. -/
theorem getLoggingFields_correct (registry : List ContextKey) (c : Ctx) :
    GetLoggingFields registry none = []
    ∧ GetLoggingFields registry (some c) = registry.filterMap (keySelect c)
    ∧ GetLoggingFields registry (some c) = GetLoggingFields registry (some c) := by
  exact ⟨rfl, getLoggingFields_eq_filterMap registry c, rfl⟩

/-- C8: appending keys to the registry makes subsequent extractions pick
them up after all previously registered keys: extraction over the extended
registry is the old extraction followed by the new keys' contribution, and
for one fresh non-empty key mapped to a string the new output is exactly
the old output with that pair at the end. -/
theorem appendContextKeys_extension (registry ks : List ContextKey) (c : Ctx)
    (k : ContextKey) (v : String) :
    (GetLoggingFields (AppendContextKeys registry ks) (some c) =
      GetLoggingFields registry (some c) ++ GetLoggingFields ks (some c))
    ∧ (k ≠ "" → c k = some (CtxVal.str v) →
        GetLoggingFields (AppendContextKeys registry [k]) (some c) =
          GetLoggingFields registry (some c) ++ [⟨k, v⟩]) := by
  constructor
  · rw [getLoggingFields_eq_filterMap, getLoggingFields_eq_filterMap,
      getLoggingFields_eq_filterMap]
    unfold AppendContextKeys
    exact List.filterMap_append registry ks (keySelect c)
  · intro hk hv
    rw [getLoggingFields_eq_filterMap, getLoggingFields_eq_filterMap]
    unfold AppendContextKeys
    rw [List.filterMap_append]
    simp [keySelect, hk, hv]

theorem appendContextKeys_extension_witness :
    GetLoggingFields (AppendContextKeys contextKeys ["tenant_id"]) (some sampleCtx) =
      GetLoggingFields contextKeys (some sampleCtx)
        ++ [{ Key := "tenant_id", Value := "tenant-9" }] := by
  exact (appendContextKeys_extension contextKeys ["tenant_id"] sampleCtx
    "tenant_id" "tenant-9").2 (by decide) (by decide)

/-- C9: a registered non-empty key whose context value is the empty string
is still extracted: `getStringFromContext` reports it found, and the pair
with empty value appears in the output. -/
theorem emptyStringValue_included (registry : List ContextKey) (c : Ctx)
    (k : ContextKey) (hk : k ≠ "") (hv : c k = some (CtxVal.str ""))
    (hmem : k ∈ registry) :
    getStringFromContext (some c) k = ("", true)
    ∧ { Key := k, Value := "" } ∈ GetLoggingFields registry (some c) := by
  constructor
  · simp [getStringFromContext, hk, hv]
  · rw [getLoggingFields_eq_filterMap]
    refine List.mem_filterMap.mpr ⟨k, hmem, ?_⟩
    simp [keySelect, hk, hv]

theorem emptyStringValue_included_witness :
    getStringFromContext (some sampleCtx) ContextKeySpanID = ("", true)
    ∧ { Key := ContextKeySpanID, Value := "" }
        ∈ GetLoggingFields contextKeys (some sampleCtx) := by
  exact emptyStringValue_included contextKeys sampleCtx ContextKeySpanID
    (by decide) (by decide) (by decide)

/-- C2: under any valid application mode, each of the six recognized level
strings makes `NewLogger` succeed with the corresponding zap severity as
the effective minimum level; the empty level string and every unrecognized
level string make it fail with the source's descriptive message naming the
valid set, returning no logger. -/
theorem newLogger_level_validation (m : AppMode) (lvl : Level)
    (hm : validAppMode m = true) :
    ((NewLogger [WithAppMode m, WithLevel LevelDebug]).toOption.map
        (fun l => l.logger.zapLogger.cfg.level) = some ZapcoreLevel.DebugLevel)
    ∧ ((NewLogger [WithAppMode m, WithLevel LevelInfo]).toOption.map
        (fun l => l.logger.zapLogger.cfg.level) = some ZapcoreLevel.InfoLevel)
    ∧ ((NewLogger [WithAppMode m, WithLevel LevelWarning]).toOption.map
        (fun l => l.logger.zapLogger.cfg.level) = some ZapcoreLevel.WarnLevel)
    ∧ ((NewLogger [WithAppMode m, WithLevel LevelError]).toOption.map
        (fun l => l.logger.zapLogger.cfg.level) = some ZapcoreLevel.ErrorLevel)
    ∧ ((NewLogger [WithAppMode m, WithLevel LevelPanic]).toOption.map
        (fun l => l.logger.zapLogger.cfg.level) = some ZapcoreLevel.PanicLevel)
    ∧ ((NewLogger [WithAppMode m, WithLevel LevelFatal]).toOption.map
        (fun l => l.logger.zapLogger.cfg.level) = some ZapcoreLevel.FatalLevel)
    ∧ (NewLogger [WithAppMode m, WithLevel ""] =
        Except.error "logging level cannot be empty. Please specify one of: debug, info, warning, error, panic, fatal")
    ∧ (lvl ≠ "" → lvl ≠ LevelDebug → lvl ≠ LevelInfo → lvl ≠ LevelWarning →
        lvl ≠ LevelError → lvl ≠ LevelPanic → lvl ≠ LevelFatal →
        NewLogger [WithAppMode m, WithLevel lvl] =
          Except.error ("invalid logging level: '" ++ lvl ++ "'. Supported levels are: debug, info, warning, error, panic, fatal. Please check your configuration and ensure you're using one of these valid levels")) := by
  have hm3 : (m = "development" ∨ m = "production") ∨ m = "staging" := by
    simpa [validAppMode, AppModeDevelopment, AppModeProduction, AppModeStaging]
      using hm
  rcases hm3 with (h | h) | h <;> subst h <;>
    refine ⟨by rfl, by rfl, by rfl, by rfl, by rfl, by rfl, by rfl, ?_⟩ <;>
    · intro h1 h2 h3 h4 h5 h6 h7
      simp [NewLogger, resolveConfig, WithAppMode, WithLevel, WithDefaultConfig,
        emptyConfig, newLoggerFromConfig, AppModeDevelopment, AppModeStaging,
        AppModeProduction, parseLevel, h1, h2, h3, h4, h5, h6, h7]

theorem newLogger_level_validation_witness :
    validAppMode AppModeProduction = true
    ∧ NewLogger [WithAppMode AppModeProduction, WithLevel "verbose"] =
        Except.error "invalid logging level: 'verbose'. Supported levels are: debug, info, warning, error, panic, fatal. Please check your configuration and ensure you're using one of these valid levels"
    ∧ (NewLogger [WithAppMode AppModeProduction, WithLevel LevelError]).toOption.map
        (fun l => l.logger.zapLogger.cfg.level) = some ZapcoreLevel.ErrorLevel := by
  have h := newLogger_level_validation AppModeProduction "verbose" (by decide)
  exact ⟨by decide,
    h.2.2.2.2.2.2.2 (by decide) (by decide) (by decide) (by decide) (by decide)
      (by decide) (by decide),
    h.2.2.2.1⟩

/-- C3: every application mode outside development/staging/production
(including the "empty" mode value and the empty string) makes `NewLogger`
return the invalid-app-mode error and no logger, while development and
staging select the development preset and production selects the
production preset. -/
theorem newLogger_mode_validation (m : AppMode) :
    (m ≠ AppModeDevelopment → m ≠ AppModeStaging → m ≠ AppModeProduction →
      NewLogger [WithAppMode m] = Except.error "invalid app mode")
    ∧ NewLogger [WithAppMode AppModeEmpty] = Except.error "invalid app mode"
    ∧ NewLogger [WithAppMode ""] = Except.error "invalid app mode"
    ∧ (NewLogger [WithAppMode AppModeDevelopment]).toOption.map
        (fun l => l.logger.zapLogger.cfg.preset) = some Preset.development
    ∧ (NewLogger [WithAppMode AppModeStaging]).toOption.map
        (fun l => l.logger.zapLogger.cfg.preset) = some Preset.development
    ∧ (NewLogger [WithAppMode AppModeProduction]).toOption.map
        (fun l => l.logger.zapLogger.cfg.preset) = some Preset.production := by
  refine ⟨?_, by rfl, by rfl, by rfl, by rfl, by rfl⟩
  intro h1 h2 h3
  simp [NewLogger, resolveConfig, WithAppMode, WithDefaultConfig, emptyConfig,
    newLoggerFromConfig, h1, h2, h3]

theorem newLogger_mode_validation_witness :
    NewLogger [WithAppMode "qa"] = Except.error "invalid app mode" := by
  exact (newLogger_mode_validation "qa").1 (by decide) (by decide) (by decide)

/-- C4: `WithDefaultConfig` followed by `WithLevel(error)` yields the
default configuration with only the level changed, and the built logger
carries error level, JSON encoding, the development preset, the default
field-name keys, caller and stacktrace disabled, and stdout/stderr
destinations. -/
theorem defaultConfig_levelOverride_roundtrip :
    resolveConfig [WithDefaultConfig, WithLevel LevelError] =
      { Level := LevelError, Encoding := EncodingJson,
        AppMode := AppModeDevelopment, NewRelicApp := false,
        TimeKey := "time", LevelKey := "level", NameKey := "logger",
        CallerKey := "caller", MessageKey := "message",
        StacktraceKey := "stack_trace", DisableStacktrace := true,
        DisableCaller := true, OutputPaths := ["stdout"],
        ErrorOutputPaths := ["stderr"] }
    ∧ (NewLogger [WithDefaultConfig, WithLevel LevelError]).toOption.map
        (fun l => l.logger.zapLogger.cfg) =
      some
        { preset := Preset.development, level := ZapcoreLevel.ErrorLevel,
          encoding := "json", timeKey := "time", levelKey := "level",
          nameKey := "logger", callerKey := "caller", messageKey := "message",
          stacktraceKey := "stack_trace", disableStacktrace := true,
          disableCaller := true, outputPaths := ["stdout"],
          errorOutputPaths := ["stderr"] } := by
  exact ⟨by rfl, by rfl⟩

/-- C10: mode validation comes first: an invalid application mode yields
the invalid-app-mode error regardless of the level (also through
`NewLogger` with both options invalid), and any other construction error
implies the mode was valid and the error came from `parseLevel`. -/
theorem mode_validated_before_level (cfg : config) (m : AppMode) (lvl : Level) :
    (cfg.AppMode ≠ AppModeDevelopment → cfg.AppMode ≠ AppModeStaging →
      cfg.AppMode ≠ AppModeProduction →
      newLoggerFromConfig cfg = Except.error "invalid app mode")
    ∧ (m ≠ AppModeDevelopment → m ≠ AppModeStaging → m ≠ AppModeProduction →
        NewLogger [WithAppMode m, WithLevel lvl] =
          Except.error "invalid app mode")
    ∧ (∀ e, newLoggerFromConfig cfg = Except.error e →
        e ≠ "invalid app mode" →
        validAppMode cfg.AppMode = true
        ∧ parseLevel cfg.Level = Except.error e) := by
  refine ⟨?_, ?_, ?_⟩
  · intro h1 h2 h3
    simp [newLoggerFromConfig, h1, h2, h3]
  · intro h1 h2 h3
    simp [NewLogger, resolveConfig, WithAppMode, WithLevel, WithDefaultConfig,
      emptyConfig, newLoggerFromConfig, h1, h2, h3]
  · intro e he hne
    unfold newLoggerFromConfig at he
    by_cases h1 : cfg.AppMode = AppModeDevelopment ∨ cfg.AppMode = AppModeStaging
    · rw [if_pos h1] at he
      constructor
      · rcases h1 with h | h <;>
          simp [validAppMode, h, AppModeDevelopment, AppModeStaging]
      · cases hp : parseLevel cfg.Level with
        | error e2 =>
          rw [hp] at he
          simp at he
          rw [he]
        | ok l =>
          rw [hp] at he
          simp at he
    · rw [if_neg h1] at he
      by_cases h2 : cfg.AppMode = AppModeProduction
      · rw [if_pos h2] at he
        constructor
        · simp [validAppMode, h2, AppModeProduction]
        · cases hp : parseLevel cfg.Level with
          | error e2 =>
            rw [hp] at he
            simp at he
            rw [he]
          | ok l =>
            rw [hp] at he
            simp at he
      · rw [if_neg h2] at he
        injection he with he
        exact absurd he.symm hne

theorem mode_validated_before_level_witness :
    NewLogger [WithAppMode "bogus", WithLevel "nope"] =
      Except.error "invalid app mode" := by
  exact (mode_validated_before_level emptyConfig "bogus" "nope").2.1
    (by decide) (by decide) (by decide)

/-- The logger value `NewLogger []` produces, used by witnesses. -/
def wDefaultZapConfig : ZapConfig :=
  { preset := Preset.development, level := ZapcoreLevel.InfoLevel,
    encoding := "json", timeKey := "time", levelKey := "level",
    nameKey := "logger", callerKey := "caller", messageKey := "message",
    stacktraceKey := "stack_trace", disableStacktrace := true,
    disableCaller := true, outputPaths := ["stdout"],
    errorOutputPaths := ["stderr"] }

def wDefaultLogger : GoLogger.logger :=
  { logger := { zapLogger :=
      { cfg := wDefaultZapConfig, nrWrapped := false, context := [] } } }

/-- C7: the encoding passed to the engine is the configured value when it
is json or console and the "console" fallback otherwise; whether
construction succeeds never depends on the encoding value. -/
theorem encoding_fallback (e : Encoding) (cfg : config) :
    (validEncoding e = true → Encoding.String e = e)
    ∧ (validEncoding e = false → Encoding.String e = EncodingConsole)
    ∧ ((newLoggerFromConfig { cfg with Encoding := e }).toOption.isSome =
        (newLoggerFromConfig cfg).toOption.isSome)
    ∧ (∀ l, newLoggerFromConfig cfg = Except.ok l →
        l.logger.zapLogger.cfg.encoding = Encoding.String cfg.Encoding) := by
  refine ⟨?_, ?_, ?_, ?_⟩
  · intro h
    simp [Encoding.String, h]
  · intro h
    simp [Encoding.String, h]
  · unfold newLoggerFromConfig
    by_cases h1 : cfg.AppMode = AppModeDevelopment ∨ cfg.AppMode = AppModeStaging
    · cases hp : parseLevel cfg.Level <;> simp [h1, hp, Except.toOption]
    · by_cases h2 : cfg.AppMode = AppModeProduction
      · cases hp : parseLevel cfg.Level <;>
          simp [h2, hp, Except.toOption, AppModeDevelopment, AppModeStaging,
            AppModeProduction]
      · simp [h1, h2, Except.toOption]
  · intro l hl
    unfold newLoggerFromConfig at hl
    by_cases h1 : cfg.AppMode = AppModeDevelopment ∨ cfg.AppMode = AppModeStaging
    · rw [if_pos h1] at hl
      cases hp : parseLevel cfg.Level with
      | error e2 =>
        rw [hp] at hl
        simp at hl
      | ok lv =>
        rw [hp] at hl
        by_cases h3 : cfg.NewRelicApp <;>
          · simp [h3] at hl
            subst hl
            simp [ZapConfig.Build, resolvedZapConfig]
    · rw [if_neg h1] at hl
      by_cases h2 : cfg.AppMode = AppModeProduction
      · rw [if_pos h2] at hl
        cases hp : parseLevel cfg.Level with
        | error e2 =>
          rw [hp] at hl
          simp at hl
        | ok lv =>
          rw [hp] at hl
          by_cases h3 : cfg.NewRelicApp <;>
            · simp [h3] at hl
              subst hl
              simp [ZapConfig.Build, resolvedZapConfig]
      · rw [if_neg h2] at hl
        simp at hl

/-- A concrete base logger carrying one accumulated field, with the most
verbose level so every severity is enabled; used by witnesses. -/
def wBase : GoLogger.zapLogger :=
  { zapLogger :=
      { cfg := NewDevelopmentConfig, nrWrapped := false,
        context := [zap.String "svc" "api"] } }

/-- The `logger` facade wrapping `wBase`, used by witnesses. -/
def wFacade : GoLogger.logger :=
  { logger := wBase }

/-- The entry `wBase.With [component db]` emits at info level on
`sampleCtx`, used by the C5 witness. -/
def wEntryWith : Entry :=
  { level := ZapcoreLevel.InfoLevel, msg := "m",
    fields := [zap.String "svc" "api", zap.String "component" "db",
      zap.String "user_id" "user-1", zap.String "span_id" "",
      zap.String "k" "v"] }

/-- The entry `wBase` emits at debug level on `sampleCtx`, used by the C6
witness. -/
def wEntryDebug : Entry :=
  { level := ZapcoreLevel.DebugLevel, msg := "boot",
    fields := [zap.String "svc" "api", zap.String "user_id" "user-1",
      zap.String "span_id" "", zap.String "k" "v"] }

/-- C5: `With` returns a new logger whose accumulated field set is the
parent's followed by the given fields (same configuration), every
emission of the new logger carries those fields in addition to what the
parent carried, and the original logger's own emissions are unchanged
(they never contain the added fields unless already present): both for
the `zapLogger` wrapper and the outer `logger` facade. -/
theorem with_no_mutation (z : GoLogger.zapLogger) (l : GoLogger.logger)
    (fs : List Field) :
    (zapLogger.With z fs).zapLogger.context = z.zapLogger.context ++ fs
    ∧ (zapLogger.With z fs).zapLogger.cfg = z.zapLogger.cfg
    ∧ (logger.With l fs).zapLogger.context = l.logger.zapLogger.context ++ fs
    ∧ (∀ registry ctx msg gs e,
        (zapLogger.Info registry (zapLogger.With z fs) ctx msg gs = some e →
          e.fields = z.zapLogger.context ++ fs
            ++ zapLogger.extractTrace registry ctx ++ gs)
        ∧ (zapLogger.Warn registry (zapLogger.With z fs) ctx msg gs = some e →
          e.fields = z.zapLogger.context ++ fs
            ++ zapLogger.extractTrace registry ctx ++ gs)
        ∧ (zapLogger.Error registry (zapLogger.With z fs) ctx msg gs = some e →
          e.fields = z.zapLogger.context ++ fs
            ++ zapLogger.extractTrace registry ctx ++ gs)
        ∧ (zapLogger.Debug registry (zapLogger.With z fs) ctx msg gs = some e →
          e.fields = z.zapLogger.context ++ fs
            ++ zapLogger.extractTrace registry ctx ++ gs)
        ∧ (zapLogger.Panic registry (zapLogger.With z fs) ctx msg gs = some e →
          e.fields = z.zapLogger.context ++ fs
            ++ zapLogger.extractTrace registry ctx ++ gs)
        ∧ (zapLogger.Fatal registry (zapLogger.With z fs) ctx msg gs = some e →
          e.fields = z.zapLogger.context ++ fs
            ++ zapLogger.extractTrace registry ctx ++ gs)
        ∧ (zapLogger.Info registry z ctx msg gs = some e →
          e.fields = z.zapLogger.context
            ++ zapLogger.extractTrace registry ctx ++ gs)
        ∧ (zapLogger.Warn registry z ctx msg gs = some e →
          e.fields = z.zapLogger.context
            ++ zapLogger.extractTrace registry ctx ++ gs)
        ∧ (zapLogger.Error registry z ctx msg gs = some e →
          e.fields = z.zapLogger.context
            ++ zapLogger.extractTrace registry ctx ++ gs)
        ∧ (zapLogger.Debug registry z ctx msg gs = some e →
          e.fields = z.zapLogger.context
            ++ zapLogger.extractTrace registry ctx ++ gs)
        ∧ (zapLogger.Panic registry z ctx msg gs = some e →
          e.fields = z.zapLogger.context
            ++ zapLogger.extractTrace registry ctx ++ gs)
        ∧ (zapLogger.Fatal registry z ctx msg gs = some e →
          e.fields = z.zapLogger.context
            ++ zapLogger.extractTrace registry ctx ++ gs)) := by
  refine ⟨rfl, rfl, rfl, ?_⟩
  intro registry ctx msg gs e
  refine ⟨?_, ?_, ?_, ?_, ?_, ?_, ?_, ?_, ?_, ?_, ?_, ?_⟩ <;>
    · intro h
      have h3 := (log_some _ _ _ _ _ h).2.2
      simp [zapLogger.With, ZapLogger.With] at h3
      simp [h3]

theorem with_no_mutation_witness :
    Entry.fields wEntryWith =
      wBase.zapLogger.context ++ [zap.String "component" "db"]
        ++ zapLogger.extractTrace contextKeys (some sampleCtx)
        ++ [zap.String "k" "v"] := by
  exact ((with_no_mutation wBase wFacade [zap.String "component" "db"]).2.2.2
    contextKeys (some sampleCtx) "m" [zap.String "k" "v"] wEntryWith).1
    (by decide)

/-- C6: each of the six emission operations runs field extraction on the
context (`extractTrace` is exactly the extracted pairs as zap string
fields) and, when the record passes the level check, hands the engine a
record at the corresponding severity whose field list places the extracted
context fields before (concatenated ahead of) the caller-supplied fields,
after whatever fields the logger instance already carried. -/
theorem emission_field_order (registry : List ContextKey)
    (z : GoLogger.zapLogger) (ctx : Option Ctx) (msg : String)
    (fs : List Field) (e : Entry) :
    (zapLogger.extractTrace registry ctx =
      (GetLoggingFields registry ctx).map
        (fun f => zap.String (ContextKey.String f.Key) f.Value))
    ∧ (zapLogger.Debug registry z ctx msg fs = some e →
        e.level = ZapcoreLevel.DebugLevel ∧ e.msg = msg ∧
        e.fields = z.zapLogger.context
          ++ zapLogger.extractTrace registry ctx ++ fs)
    ∧ (zapLogger.Info registry z ctx msg fs = some e →
        e.level = ZapcoreLevel.InfoLevel ∧ e.msg = msg ∧
        e.fields = z.zapLogger.context
          ++ zapLogger.extractTrace registry ctx ++ fs)
    ∧ (zapLogger.Warn registry z ctx msg fs = some e →
        e.level = ZapcoreLevel.WarnLevel ∧ e.msg = msg ∧
        e.fields = z.zapLogger.context
          ++ zapLogger.extractTrace registry ctx ++ fs)
    ∧ (zapLogger.Error registry z ctx msg fs = some e →
        e.level = ZapcoreLevel.ErrorLevel ∧ e.msg = msg ∧
        e.fields = z.zapLogger.context
          ++ zapLogger.extractTrace registry ctx ++ fs)
    ∧ (zapLogger.Panic registry z ctx msg fs = some e →
        e.level = ZapcoreLevel.PanicLevel ∧ e.msg = msg ∧
        e.fields = z.zapLogger.context
          ++ zapLogger.extractTrace registry ctx ++ fs)
    ∧ (zapLogger.Fatal registry z ctx msg fs = some e →
        e.level = ZapcoreLevel.FatalLevel ∧ e.msg = msg ∧
        e.fields = z.zapLogger.context
          ++ zapLogger.extractTrace registry ctx ++ fs) := by
  refine ⟨extractTrace_eq_map registry ctx, ?_, ?_, ?_, ?_, ?_, ?_⟩ <;>
    · intro h
      obtain ⟨h1, h2, h3⟩ := log_some _ _ _ _ _ h
      refine ⟨h1, h2, ?_⟩
      simp [ZapLogger.With] at h3
      simp [h3]

theorem emission_field_order_witness :
    Entry.level wEntryDebug = ZapcoreLevel.DebugLevel
    ∧ Entry.msg wEntryDebug = "boot"
    ∧ Entry.fields wEntryDebug = wBase.zapLogger.context
        ++ zapLogger.extractTrace contextKeys (some sampleCtx)
        ++ [zap.String "k" "v"] := by
  exact (emission_field_order contextKeys wBase (some sampleCtx) "boot"
    [zap.String "k" "v"] wEntryDebug).2.1 (by decide)

theorem encoding_fallback_witness :
    Encoding.String EncodingJson = EncodingJson
    ∧ Encoding.String "yaml" = EncodingConsole
    ∧ wDefaultLogger.logger.zapLogger.cfg.encoding =
        Encoding.String (resolveConfig []).Encoding := by
  exact ⟨(encoding_fallback EncodingJson (resolveConfig [])).1 (by decide),
    (encoding_fallback "yaml" (resolveConfig [])).2.1 (by decide),
    (encoding_fallback "yaml" (resolveConfig [])).2.2.2 wDefaultLogger (by rfl)⟩

end GoLogger
